import Mathlib

/-!
Verification of the video-merger core (`video_processor.py` and the cleanup
route of `app.py`) against its natural-language specification.

The Python code is shallowly embedded: the external tools (ffmpeg, ffprobe)
and the filesystem are modelled as an explicit environment supplied to the
functions, and each Python function becomes a total Lean function on that
environment. Parsed ffprobe JSON is modelled by `ProbeData`; a numeric field
value that Python's `float()` would fail to parse is `JNum.malformed`
(the resulting `ValueError` is caught by the generic `except Exception`
handler in the source). Durations and timestamps are modelled as rationals,
exact stand-ins for Python floats on the comparisons the code performs.
-/

namespace VideoMerger

/-- Value of a numeric metadata field as seen by `float()` / `int()`:
either it parses to a number, or parsing raises. -/
inductive JNum where
  | val (q : ℚ)
  | malformed
deriving DecidableEq

/-- The top-level `format` object of ffprobe JSON output, restricted to the
field the code reads. `none` means the `duration` key is absent. -/
structure FormatData where
  duration : Option JNum
deriving DecidableEq

/-- One entry of the `streams` array of ffprobe JSON output, restricted to
the fields the code reads; `none` marks an absent key. -/
structure MediaStream where
  duration : Option JNum
  codec_type : Option String
  width : Option Int
  height : Option Int
deriving DecidableEq

/-- Parsed ffprobe JSON output: optional `format` object and optional
`streams` array. -/
structure ProbeData where
  format : Option FormatData
  streams : Option (List MediaStream)
deriving DecidableEq

/-- Outcome of one ffprobe invocation: non-zero exit
(`subprocess.CalledProcessError` under `check=True`), stdout that is not
JSON (`json.JSONDecodeError`), or successfully parsed data. -/
inductive ProbeOutcome where
  | procError
  | badJson
  | ok (d : ProbeData)
deriving DecidableEq

/-- Duration field of the `format` object, when both are present
(`'format' in probe_data and 'duration' in probe_data['format']`). -/
def formatDur (d : ProbeData) : Option JNum :=
  match d.format with
  | some f => f.duration
  | none => none

/-- The loop of `get_audio_duration` over the streams array: return the
`float()` of the first stream that has a `duration` key; a parse failure
there raises, which the caller turns into `None`. -/
def streamScan : List MediaStream → Option ℚ
  | [] => none
  | s :: rest =>
    match s.duration with
    | some (.val q) => some q
    | some .malformed => none
    | none => streamScan rest

/-- First stream that has a `duration` key at all, and that key's value. -/
def firstStreamDurField : List MediaStream → Option JNum
  | [] => none
  | s :: rest =>
    match s.duration with
    | some j => some j
    | none => firstStreamDurField rest

/-- Embedding of `VideoProcessor.get_audio_duration`: duration from the
`format` object first, else the first stream-level duration; `None` on
tool failure, undecodable JSON, an unparseable located duration value, or
no duration key anywhere. -/
def get_audio_duration : ProbeOutcome → Option ℚ
  | .procError => none
  | .badJson => none
  | .ok d =>
    match formatDur d with
    | some (.val q) => some q
    | some .malformed => none
    | none => streamScan (d.streams.getD [])

/-- The located-but-unparseable case: the duration the code reads exists
but `float()` raises on it. -/
def malformedRead (d : ProbeData) : Prop :=
  formatDur d = some .malformed ∨
    (formatDur d = none ∧ firstStreamDurField (d.streams.getD []) = some .malformed)

/-- No duration key in the `format` object nor in any stream. -/
def noDurationField (d : ProbeData) : Prop :=
  formatDur d = none ∧ firstStreamDurField (d.streams.getD []) = none

/-- All numeric duration values present anywhere in the probe data. -/
def fieldVals : Option JNum → List ℚ
  | some (.val q) => [q]
  | _ => []

/-- Numeric duration values of the streams array, in order. -/
def streamDurVals : List MediaStream → List ℚ
  | [] => []
  | s :: rest => fieldVals s.duration ++ streamDurVals rest

/-- Every numeric duration value in the probe data (format first). -/
def durationValues (d : ProbeData) : List ℚ :=
  fieldVals (formatDur d) ++ streamDurVals (d.streams.getD [])

/-- The loop of `get_image_dimensions`: first stream whose `codec_type` is
`video` and whose width and height (0 when the key is absent) are both
positive. -/
def imgScan : List MediaStream → Option (Int × Int)
  | [] => none
  | s :: rest =>
    if s.codec_type = some "video" then
      if 0 < s.width.getD 0 ∧ 0 < s.height.getD 0 then
        some (s.width.getD 0, s.height.getD 0)
      else imgScan rest
    else imgScan rest

/-- Embedding of `VideoProcessor.get_image_dimensions`; the Python
`(None, None)` failure value is `none`. -/
def get_image_dimensions : ProbeOutcome → Option (Int × Int)
  | .procError => none
  | .badJson => none
  | .ok d => imgScan (d.streams.getD [])

/-- Boolean form of the stream `get_image_dimensions` actually returns
from: codec type `video` with positive reported width and height. -/
def isGoodVideo (s : MediaStream) : Bool :=
  s.codec_type == some "video" && decide (0 < s.width.getD 0)
    && decide (0 < s.height.getD 0)

/-- Rendering of the claim wording for the dimension probe: the (width,
height) carried by the first stream whose codec type is `video`,
irrespective of positivity. -/
def firstVideoDims (l : List MediaStream) : Option (Int × Int) :=
  (l.find? fun s => s.codec_type == some "video").map
    fun s => (s.width.getD 0, s.height.getD 0)

/-- The inline dimension normalization of `create_video`
(`width - (width % 2)`); Python `%` on a positive modulus agrees with
`Int.emod`. -/
def normalize (w h : Int) : Int × Int :=
  (w - w % 2, h - h % 2)

/-- Filesystem view: existence and size per path. -/
structure FS where
  ex : String → Bool
  size : String → Nat

/-- Behaviour of the one ffmpeg transcode invocation a composition makes:
its exit code, its captured stderr text, and the filesystem state after
the directory creation and the invocation. -/
structure FfmpegRun where
  exitCode : Int
  stderrText : String
  post : FS

/-- Environment of one `create_video` call: tool availability, the
filesystem before the call, the probe tool's behaviour per path, and the
transcode invocation's behaviour. -/
structure Env where
  ffmpegAvailable : Bool
  fs : FS
  audioProbe : String → ProbeOutcome
  imageProbe : String → ProbeOutcome
  run : FfmpegRun

/-- Embedding of `VideoProcessor.check_ffmpeg`. -/
def check_ffmpeg (env : Env) : Bool :=
  env.ffmpegAvailable

/-- Failure taxonomy of the specification, one constructor per distinct
failure message of `create_video`. -/
inductive FailReason where
  | toolMissing
  | inputNotFound
  | probeFailed
  | toolExecFailed
  | outputMissingOrEmpty
deriving DecidableEq

/-- The `(success, message)` pair `create_video` returns, as a tagged
outcome. -/
inductive CompositionResult where
  | success (msg : String)
  | failure (reason : FailReason) (msg : String)
deriving DecidableEq

/-- Whether a result is the success outcome. -/
def CompositionResult.isSuccess : CompositionResult → Bool
  | .success _ => true
  | .failure _ _ => false

/-- Observable effects of one `create_video` call: which external steps ran,
the scale argument passed to ffmpeg, and the filesystem at return. -/
structure Trace where
  audioProbed : Bool
  imageProbed : Bool
  mkdirCalled : Bool
  ffmpegInvoked : Bool
  scaleArg : Option (Int × Int)
  finalFS : FS

/-- Embedding of `VideoProcessor.create_video`, line for line: ffmpeg
availability, existence of the image then the audio path, fatal audio
duration probe, non-fatal image dimension probe with 1280x720 default,
even rounding, directory creation, the transcode invocation, exit-code
check, then the output existence and size check. -/
def create_video (env : Env) (image_path audio_path output_path : String) :
    CompositionResult × Trace :=
  if check_ffmpeg env = false then
    (.failure .toolMissing "FFmpeg is not installed or not available",
      ⟨false, false, false, false, none, env.fs⟩)
  else if env.fs.ex image_path = false then
    (.failure .inputNotFound ("Image file not found: " ++ image_path),
      ⟨false, false, false, false, none, env.fs⟩)
  else if env.fs.ex audio_path = false then
    (.failure .inputNotFound ("Audio file not found: " ++ audio_path),
      ⟨false, false, false, false, none, env.fs⟩)
  else
    match get_audio_duration (env.audioProbe audio_path) with
    | none =>
      (.failure .probeFailed "Could not determine audio duration",
        ⟨true, false, false, false, none, env.fs⟩)
    | some _duration =>
      let dims : Int × Int :=
        match get_image_dimensions (env.imageProbe image_path) with
        | some wh => wh
        | none => (1280, 720)
      let wh := normalize dims.1 dims.2
      if env.run.exitCode ≠ 0 then
        (.failure .toolExecFailed
          ("FFmpeg failed with return code " ++ toString env.run.exitCode ++
            (if env.run.stderrText = "" then "" else ": " ++ env.run.stderrText)),
          ⟨true, true, true, true, some wh, env.run.post⟩)
      else if env.run.post.ex output_path = true ∧ 0 < env.run.post.size output_path then
        (.success "Video created successfully",
          ⟨true, true, true, true, some wh, env.run.post⟩)
      else
        (.failure .outputMissingOrEmpty "Output file was not created or is empty",
          ⟨true, true, true, true, some wh, env.run.post⟩)

/-- Directory entry as the cleanup route sees it: a name from
`os.listdir` and a creation time from `os.path.getctime`. -/
structure DirEntry where
  name : String
  ctime : ℚ
deriving DecidableEq

/-- Embedding of one folder loop of the `cleanup_files` route of `app.py`:
skip `.gitkeep`, delete entries whose creation time is older than
`now - threshold`; returns the names removed, in order. -/
def cleanup_folder : List DirEntry → ℚ → ℚ → List String
  | [], _, _ => []
  | e :: rest, now, threshold =>
    if e.name = ".gitkeep" then cleanup_folder rest now threshold
    else if e.ctime < now - threshold then e.name :: cleanup_folder rest now threshold
    else cleanup_folder rest now threshold

/-- Embedding of the whole `cleanup_files` route: both folders swept with
the fixed one-hour threshold against the current time. -/
def cleanup_files (uploads outputs : List DirEntry) (now : ℚ) :
    List String × List String :=
  (cleanup_folder uploads now 3600, cleanup_folder outputs now 3600)

/-- Filesystem with no files. -/
def fsNone : FS :=
  ⟨fun _ => false, fun _ => 0⟩

/-- Filesystem where every path exists with a positive size. -/
def fsAll : FS :=
  ⟨fun _ => true, fun _ => 4096⟩

/-- Probe outcome carrying a five-second format-level duration. -/
def probeDur5 : ProbeOutcome :=
  .ok ⟨some ⟨some (.val 5)⟩, none⟩

/-- Environment of a fully successful composition whose image dimension
probe fails: tool present, inputs present, audio duration 5, transcode
exits 0 leaving the output in place. -/
def envOk : Env :=
  ⟨true, fsAll, fun _ => probeDur5, fun _ => .procError, ⟨0, "", fsAll⟩⟩

/-- Environment where the transcode tool is unavailable. -/
def envNoTool : Env :=
  ⟨false, fsNone, fun _ => .procError, fun _ => .procError, ⟨1, "", fsNone⟩⟩

/-- Environment where the tool is present but no input file exists. -/
def envNoFiles : Env :=
  ⟨true, fsNone, fun _ => .procError, fun _ => .procError, ⟨1, "", fsNone⟩⟩

lemma streamScan_eq (l : List MediaStream) :
    streamScan l =
      match firstStreamDurField l with
      | some (.val q) => some q
      | _ => none := by
  induction l with
  | nil => rfl
  | cons s rest ih =>
    cases hd : s.duration with
    | none => simpa [streamScan, firstStreamDurField, hd] using ih
    | some j => cases j <;> simp [streamScan, firstStreamDurField, hd]

lemma streamScan_mem (l : List MediaStream) (q : ℚ)
    (h : streamScan l = some q) : q ∈ streamDurVals l := by
  induction l with
  | nil => simp [streamScan] at h
  | cons s rest ih =>
    cases hd : s.duration with
    | none =>
      rw [streamScan, hd] at h
      exact List.mem_append_right _ (ih h)
    | some j =>
      cases j with
      | val r =>
        rw [streamScan, hd] at h
        obtain rfl : r = q := by simpa using h
        simp [streamDurVals, fieldVals, hd]
      | malformed => rw [streamScan, hd] at h; cases h

lemma imgScan_eq (l : List MediaStream) :
    imgScan l = (l.find? isGoodVideo).map fun s => (s.width.getD 0, s.height.getD 0) := by
  induction l with
  | nil => rfl
  | cons s rest ih =>
    by_cases hc : s.codec_type = some "video"
    · by_cases hw : 0 < s.width.getD 0
      · by_cases hh : 0 < s.height.getD 0
        · have hg : isGoodVideo s = true := by simp [isGoodVideo, hc, hw, hh]
          rw [List.find?_cons_of_pos _ hg]
          simp [imgScan, hc, hw, hh]
        · have hg : isGoodVideo s = false := by simp [isGoodVideo, hc, hw, hh]
          rw [List.find?_cons_of_neg _ (by simp [hg])]
          simpa [imgScan, hc, hw, hh] using ih
      · have hg : isGoodVideo s = false := by simp [isGoodVideo, hc, hw]
        rw [List.find?_cons_of_neg _ (by simp [hg])]
        simpa [imgScan, hc, hw] using ih
    · have hg : isGoodVideo s = false := by simp [isGoodVideo, hc]
      rw [List.find?_cons_of_neg _ (by simp [hg])]
      simpa [imgScan, hc] using ih

lemma cleanup_folder_eq (entries : List DirEntry) (now threshold : ℚ) :
    cleanup_folder entries now threshold =
      (entries.filter fun e =>
        !(e.name == ".gitkeep") && decide (e.ctime < now - threshold)).map DirEntry.name := by
  induction entries with
  | nil => rfl
  | cons e rest ih =>
    by_cases h1 : e.name = ".gitkeep"
    · simp [cleanup_folder, h1, ih, List.filter_cons]
    · by_cases h2 : e.ctime < now - threshold
      · simp [cleanup_folder, h1, h2, ih, List.filter_cons]
      · simp [cleanup_folder, h1, h2, ih, List.filter_cons]

/-- C7: `normalize` rounds each coordinate down to the nearest even number
(subtracting 1 exactly when the coordinate is odd), maps 1281x721 to
1280x720, fixes 1280x720, and is the identity on already-even input;
determinism is by construction, `normalize` being a pure function. -/
theorem normalize_even_rounding :
    (∀ w h : Int,
      (normalize w h).1 = (if w % 2 = 0 then w else w - 1) ∧
      (normalize w h).2 = (if h % 2 = 0 then h else h - 1) ∧
      2 ∣ (normalize w h).1 ∧ 2 ∣ (normalize w h).2 ∧
      (normalize w h).1 ≤ w ∧ w ≤ (normalize w h).1 + 1 ∧
      (normalize w h).2 ≤ h ∧ h ≤ (normalize w h).2 + 1 ∧
      (2 ∣ w → 2 ∣ h → normalize w h = (w, h))) ∧
    normalize 1281 721 = (1280, 720) ∧
    normalize 1280 720 = (1280, 720) := by
  refine ⟨fun w h => ?_, by decide, by decide⟩
  simp only [normalize, Prod.mk.injEq]
  split_ifs <;> omega

/-- C7 witness: the concrete examples of the claim, by the theorem. -/
theorem normalize_even_rounding_witness :
    normalize 1281 721 = (1280, 720) ∧ normalize 1280 720 = (1280, 720) :=
  ⟨normalize_even_rounding.2.1, normalize_even_rounding.2.2⟩

/-- C9: a name is deleted by the folder sweep exactly when it is not the
`.gitkeep` placeholder and some directory entry bears it with creation
time older than `now - threshold`; the placeholder is never deleted. -/
theorem cleanup_deletes_iff (entries : List DirEntry) (now threshold : ℚ)
    (n : String) :
    (n ∈ cleanup_folder entries now threshold ↔
      n ≠ ".gitkeep" ∧ ∃ e ∈ entries, e.name = n ∧ e.ctime < now - threshold) ∧
    ".gitkeep" ∉ cleanup_folder entries now threshold := by
  have key : ∀ m : String, m ∈ cleanup_folder entries now threshold ↔
      m ≠ ".gitkeep" ∧ ∃ e ∈ entries, e.name = m ∧ e.ctime < now - threshold := by
    intro m
    rw [cleanup_folder_eq]
    simp only [List.mem_map, List.mem_filter, Bool.and_eq_true, Bool.not_eq_true',
      beq_eq_false_iff_ne, ne_eq, decide_eq_true_eq]
    constructor
    · rintro ⟨e, ⟨he, hne, ht⟩, rfl⟩
      exact ⟨hne, e, he, rfl, ht⟩
    · rintro ⟨hne, e, he, rfl, ht⟩
      exact ⟨e, ⟨he, hne, ht⟩, rfl⟩
  exact ⟨key n, fun h => (((key ".gitkeep").mp h).1) rfl⟩

/-- C9 witness: on a concrete directory a stale file is deleted and the
placeholder survives, by the theorem. -/
theorem cleanup_deletes_iff_witness :
    ("old.mp4" ∈ cleanup_folder
        [⟨".gitkeep", 0⟩, ⟨"old.mp4", 100⟩, ⟨"new.mp4", 4000⟩] 5000 3600 ↔
      "old.mp4" ≠ ".gitkeep" ∧
        ∃ e ∈ [(⟨".gitkeep", 0⟩ : DirEntry), ⟨"old.mp4", 100⟩, ⟨"new.mp4", 4000⟩],
          e.name = "old.mp4" ∧ e.ctime < 5000 - 3600) ∧
    ".gitkeep" ∉ cleanup_folder
        [⟨".gitkeep", 0⟩, ⟨"old.mp4", 100⟩, ⟨"new.mp4", 4000⟩] 5000 3600 :=
  cleanup_deletes_iff [⟨".gitkeep", 0⟩, ⟨"old.mp4", 100⟩, ⟨"new.mp4", 4000⟩] 5000 3600 "old.mp4"

/-- C3: `get_audio_duration` returns the format-level duration when that
field is present and parses, otherwise the first stream-level duration
found; it returns `none` exactly on non-zero probe exit, malformed
structured output (undecodable JSON, or a located duration value that
`float()` cannot parse), or when no duration field exists anywhere.
Never raising past the boundary is captured by the embedding being a
total function into `Option`. -/
theorem get_audio_duration_spec :
    (∀ (d : ProbeData) (q : ℚ), formatDur d = some (.val q) →
      get_audio_duration (.ok d) = some q) ∧
    (∀ (d : ProbeData) (q : ℚ), formatDur d = none →
      firstStreamDurField (d.streams.getD []) = some (.val q) →
      get_audio_duration (.ok d) = some q) ∧
    (∀ o : ProbeOutcome, get_audio_duration o = none ↔
      o = .procError ∨ o = .badJson ∨
        ∃ d, o = .ok d ∧ (malformedRead d ∨ noDurationField d)) := by
  refine ⟨fun d q hf => ?_, fun d q hf hs => ?_, fun o => ?_⟩
  · simp [get_audio_duration, hf]
  · rw [get_audio_duration, hf, streamScan_eq, hs]
  · cases o with
    | procError => simp [get_audio_duration]
    | badJson => simp [get_audio_duration]
    | ok d =>
      rw [get_audio_duration]
      cases hf : formatDur d with
      | some j =>
        cases j with
        | val q => simp [malformedRead, noDurationField, hf]
        | malformed => simp [malformedRead, hf]
      | none =>
        rw [streamScan_eq]
        cases hs : firstStreamDurField (d.streams.getD []) with
        | some j =>
          cases j with
          | val q => simp [malformedRead, noDurationField, hf, hs]
          | malformed => simp [malformedRead, hf, hs]
        | none => simp [malformedRead, noDurationField, hf, hs]

/-- C3 witness: a probe output with format-level duration 5 yields 5, by
the theorem. -/
theorem get_audio_duration_spec_witness :
    get_audio_duration (.ok ⟨some ⟨some (.val 5)⟩, none⟩) = some 5 :=
  get_audio_duration_spec.1 ⟨some ⟨some (.val 5)⟩, none⟩ 5 rfl

/-- C8 counterexample: a probe output whose format-level duration field is
0 gives a present result that is not strictly positive, refuting that
every present result is greater than 0. -/
theorem get_audio_duration_nonpositive :
    get_audio_duration (.ok ⟨some ⟨some (.val 0)⟩, none⟩) = some 0 ∧
      ¬(0 < (0 : ℚ)) := by
  exact ⟨rfl, by norm_num⟩

/-- C8 amended: every present result of `get_audio_duration` is one of the
duration values carried by the probe metadata — the code performs no
positivity check, so the result is positive only under the assumption
that every duration value in the metadata is. -/
theorem get_audio_duration_value_from_metadata :
    ∀ (d : ProbeData) (q : ℚ), get_audio_duration (.ok d) = some q →
      q ∈ durationValues d ∧ ((∀ x ∈ durationValues d, 0 < x) → 0 < q) := by
  intro d q h
  have hm : q ∈ durationValues d := by
    rw [get_audio_duration] at h
    cases hf : formatDur d with
    | some j =>
      cases j with
      | val r =>
        rw [hf] at h
        obtain rfl : r = q := by simpa using h
        simp [durationValues, fieldVals, hf]
      | malformed => rw [hf] at h; cases h
    | none =>
      rw [hf] at h
      exact List.mem_append_right _ (streamScan_mem _ q h)
  exact ⟨hm, fun hpos => hpos q hm⟩

/-- C8 witness: a format-level duration 5 is present, is among the
metadata duration values, and is positive under the positivity
assumption, by the theorem. -/
theorem get_audio_duration_value_from_metadata_witness :
    (5 : ℚ) ∈ durationValues ⟨some ⟨some (.val 5)⟩, none⟩ ∧
      ((∀ x ∈ durationValues ⟨some ⟨some (.val 5)⟩, none⟩, 0 < x) → 0 < (5 : ℚ)) :=
  get_audio_duration_value_from_metadata ⟨some ⟨some (.val 5)⟩, none⟩ 5 rfl

/-- C4 counterexample: with a first video stream reporting 0x0 and a
second reporting 640x480, the code returns 640x480, not the dimensions
carried by the first stream whose codec type is video. -/
theorem get_image_dimensions_not_first_video :
    get_image_dimensions (.ok ⟨none, some
        [⟨none, some "video", some 0, some 0⟩,
         ⟨none, some "video", some 640, some 480⟩]⟩) = some (640, 480) ∧
    firstVideoDims
        [⟨none, some "video", some 0, some 0⟩,
         ⟨none, some "video", some 640, some 480⟩] = some (0, 0) ∧
    some ((640 : Int), (480 : Int)) ≠ some ((0 : Int), (0 : Int)) := by
  refine ⟨by decide, by decide, by decide⟩

/-- C4 amended: `get_image_dimensions` returns the (width, height) of the
first reported stream whose codec type is video and whose reported width
and height are both positive, and is absent when no such stream exists —
in particular absent whenever no stream reports positive width and
height, and on probe failure or malformed output. -/
theorem get_image_dimensions_first_good_stream :
    (∀ d : ProbeData, get_image_dimensions (.ok d) =
      ((d.streams.getD []).find? isGoodVideo).map
        fun s => (s.width.getD 0, s.height.getD 0)) ∧
    get_image_dimensions .procError = none ∧
    get_image_dimensions .badJson = none :=
  ⟨fun d => imgScan_eq (d.streams.getD []), rfl, rfl⟩

/-- C4 witness: the amended characterization evaluated on a concrete
single-stream probe output, by the theorem. -/
theorem get_image_dimensions_first_good_stream_witness :
    get_image_dimensions (.ok ⟨none, some [⟨none, some "video", some 640, some 480⟩]⟩) =
      (([(⟨none, some "video", some 640, some 480⟩ : MediaStream)].find? isGoodVideo).map
        fun s => (s.width.getD 0, s.height.getD 0)) :=
  get_image_dimensions_first_good_stream.1 ⟨none, some [⟨none, some "video", some 640, some 480⟩]⟩

/-- C1: `create_video` returns Success exactly when the transcode
invocation ran and exited with code zero and the output path exists with
positive size in the filesystem at return; moreover a zero exit with a
missing or empty output yields the OutputMissingOrEmpty failure. -/
theorem create_video_success_iff (env : Env) (i a o : String) :
    ((create_video env i a o).1.isSuccess = true ↔
      (create_video env i a o).2.ffmpegInvoked = true ∧ env.run.exitCode = 0 ∧
      (create_video env i a o).2.finalFS.ex o = true ∧
      0 < (create_video env i a o).2.finalFS.size o) ∧
    ((create_video env i a o).2.ffmpegInvoked = true → env.run.exitCode = 0 →
      ¬((create_video env i a o).2.finalFS.ex o = true ∧
        0 < (create_video env i a o).2.finalFS.size o) →
      (create_video env i a o).1 =
        .failure .outputMissingOrEmpty "Output file was not created or is empty") := by
  by_cases h1 : check_ffmpeg env = false
  · simp [create_video, h1, CompositionResult.isSuccess]
  · by_cases h2 : env.fs.ex i = false
    · simp [create_video, h1, h2, CompositionResult.isSuccess]
    · by_cases h3 : env.fs.ex a = false
      · simp [create_video, h1, h2, h3, CompositionResult.isSuccess]
      · cases hd : get_audio_duration (env.audioProbe a) with
        | none => simp [create_video, h1, h2, h3, hd, CompositionResult.isSuccess]
        | some dq =>
          by_cases h5 : env.run.exitCode = 0
          · by_cases h6 : env.run.post.ex o = true ∧ 0 < env.run.post.size o
            · simp [create_video, h1, h2, h3, hd, h5, h6, CompositionResult.isSuccess]
            · simp [create_video, h1, h2, h3, hd, h5, h6, CompositionResult.isSuccess]
          · simp [create_video, h1, h2, h3, hd, h5, CompositionResult.isSuccess]

/-- C1 witness: the fully successful environment produces Success, by the
theorem's backward direction. -/
theorem create_video_success_iff_witness :
    ((create_video envOk "i.png" "a.mp3" "out/v.mp4").1).isSuccess = true :=
  (create_video_success_iff envOk "i.png" "a.mp3" "out/v.mp4").1.mpr
    ⟨by decide, by decide, by decide, by decide⟩

/-- C2: with the tool available and both inputs present, a failed audio
duration probe makes `create_video` return the ProbeFailed failure
without invoking the transcode tool, while a failed image dimension
probe after a successful duration probe is non-fatal: the transcode tool
is still invoked, with the default dimensions 1280x720 as scale
argument. -/
theorem create_video_probe_steps (env : Env) (i a o : String)
    (h1 : env.ffmpegAvailable = true) (h2 : env.fs.ex i = true)
    (h3 : env.fs.ex a = true) :
    (get_audio_duration (env.audioProbe a) = none →
      (create_video env i a o).1 =
        .failure .probeFailed "Could not determine audio duration" ∧
      (create_video env i a o).2.ffmpegInvoked = false) ∧
    (∀ dq : ℚ, get_audio_duration (env.audioProbe a) = some dq →
      get_image_dimensions (env.imageProbe i) = none →
      (create_video env i a o).2.ffmpegInvoked = true ∧
      (create_video env i a o).2.scaleArg = some (1280, 720)) := by
  constructor
  · intro hd
    simp [create_video, check_ffmpeg, h1, h2, h3, hd]
  · intro dq hd hi
    have hn : normalize 1280 720 = (1280, 720) := by decide
    by_cases h5 : env.run.exitCode = 0
    · by_cases h6 : env.run.post.ex o = true ∧ 0 < env.run.post.size o
      · simp [create_video, check_ffmpeg, h1, h2, h3, hd, hi, h5, h6, hn]
      · simp [create_video, check_ffmpeg, h1, h2, h3, hd, hi, h5, h6, hn]
    · simp [create_video, check_ffmpeg, h1, h2, h3, hd, hi, h5, hn]

/-- C2 witness: in the successful environment, whose image probe fails,
the transcode runs with the 1280x720 default, by the theorem. -/
theorem create_video_probe_steps_witness :
    (get_audio_duration (envOk.audioProbe "a.mp3") = none →
      (create_video envOk "i.png" "a.mp3" "out/v.mp4").1 =
        .failure .probeFailed "Could not determine audio duration" ∧
      (create_video envOk "i.png" "a.mp3" "out/v.mp4").2.ffmpegInvoked = false) ∧
    (∀ dq : ℚ, get_audio_duration (envOk.audioProbe "a.mp3") = some dq →
      get_image_dimensions (envOk.imageProbe "i.png") = none →
      (create_video envOk "i.png" "a.mp3" "out/v.mp4").2.ffmpegInvoked = true ∧
      (create_video envOk "i.png" "a.mp3" "out/v.mp4").2.scaleArg = some (1280, 720)) :=
  create_video_probe_steps envOk "i.png" "a.mp3" "out/v.mp4" rfl rfl rfl

/-- C5: when the tool availability check fails, `create_video` returns the
ToolMissing failure and performs no probe, no directory creation and no
transcode invocation. -/
theorem create_video_tool_missing (env : Env) (i a o : String)
    (h : env.ffmpegAvailable = false) :
    (create_video env i a o).1 =
      .failure .toolMissing "FFmpeg is not installed or not available" ∧
    (create_video env i a o).2.audioProbed = false ∧
    (create_video env i a o).2.imageProbed = false ∧
    (create_video env i a o).2.mkdirCalled = false ∧
    (create_video env i a o).2.ffmpegInvoked = false := by
  simp [create_video, check_ffmpeg, h]

/-- C5 witness: the tool-less environment, by the theorem. -/
theorem create_video_tool_missing_witness :
    (create_video envNoTool "i.png" "a.mp3" "o.mp4").1 =
      .failure .toolMissing "FFmpeg is not installed or not available" ∧
    (create_video envNoTool "i.png" "a.mp3" "o.mp4").2.audioProbed = false ∧
    (create_video envNoTool "i.png" "a.mp3" "o.mp4").2.imageProbed = false ∧
    (create_video envNoTool "i.png" "a.mp3" "o.mp4").2.mkdirCalled = false ∧
    (create_video envNoTool "i.png" "a.mp3" "o.mp4").2.ffmpegInvoked = false :=
  create_video_tool_missing envNoTool "i.png" "a.mp3" "o.mp4" rfl

/-- C6: with the tool available, a missing image path yields the
InputNotFound failure whose diagnostic names the image path — checked
before the audio path, so this holds whatever the audio path's state —
and a present image with a missing audio path yields the InputNotFound
failure naming the audio path; in both cases the transcode tool is not
invoked. -/
theorem create_video_input_not_found (env : Env) (i a o : String)
    (h : env.ffmpegAvailable = true) :
    (env.fs.ex i = false →
      (create_video env i a o).1 =
        .failure .inputNotFound ("Image file not found: " ++ i) ∧
      (create_video env i a o).2.ffmpegInvoked = false) ∧
    (env.fs.ex i = true → env.fs.ex a = false →
      (create_video env i a o).1 =
        .failure .inputNotFound ("Audio file not found: " ++ a) ∧
      (create_video env i a o).2.ffmpegInvoked = false) := by
  constructor
  · intro h2
    simp [create_video, check_ffmpeg, h, h2]
  · intro h2 h3
    simp [create_video, check_ffmpeg, h, h2, h3]

/-- C6 witness: the environment with no files, by the theorem. -/
theorem create_video_input_not_found_witness :
    (envNoFiles.fs.ex "i.png" = false →
      (create_video envNoFiles "i.png" "a.mp3" "o.mp4").1 =
        .failure .inputNotFound ("Image file not found: " ++ "i.png") ∧
      (create_video envNoFiles "i.png" "a.mp3" "o.mp4").2.ffmpegInvoked = false) ∧
    (envNoFiles.fs.ex "i.png" = true → envNoFiles.fs.ex "a.mp3" = false →
      (create_video envNoFiles "i.png" "a.mp3" "o.mp4").1 =
        .failure .inputNotFound ("Audio file not found: " ++ "a.mp3") ∧
      (create_video envNoFiles "i.png" "a.mp3" "o.mp4").2.ffmpegInvoked = false) :=
  create_video_input_not_found envNoFiles "i.png" "a.mp3" "o.mp4" rfl

/-- C10: whenever `create_video` fails with ToolMissing, InputNotFound or
ProbeFailed, the transcode tool was not invoked, the output directory was
not created, and the filesystem at return is the initial one, so neither
the output file nor its parent directory was created or overwritten. -/
theorem create_video_failure_frame (env : Env) (i a o : String)
    (r : FailReason) (m : String)
    (hres : (create_video env i a o).1 = .failure r m)
    (hr : r = .toolMissing ∨ r = .inputNotFound ∨ r = .probeFailed) :
    (create_video env i a o).2.ffmpegInvoked = false ∧
    (create_video env i a o).2.mkdirCalled = false ∧
    (create_video env i a o).2.finalFS = env.fs := by
  by_cases h1 : check_ffmpeg env = false
  · simp [create_video, h1]
  · by_cases h2 : env.fs.ex i = false
    · simp [create_video, h1, h2]
    · by_cases h3 : env.fs.ex a = false
      · simp [create_video, h1, h2, h3]
      · cases hd : get_audio_duration (env.audioProbe a) with
        | none => simp [create_video, h1, h2, h3, hd]
        | some dq =>
          exfalso
          rw [create_video] at hres
          by_cases h5 : env.run.exitCode = 0
          · by_cases h6 : env.run.post.ex o = true ∧ 0 < env.run.post.size o
            · simp [h1, h2, h3, hd, h5, h6] at hres
            · simp [h1, h2, h3, hd, h5, h6] at hres
              rcases hr with rfl | rfl | rfl <;> simp_all
          · simp [h1, h2, h3, hd, h5] at hres
            rcases hr with rfl | rfl | rfl <;> simp_all

/-- C10 witness: the tool-less environment fails with ToolMissing and
leaves the filesystem untouched, by the theorem. -/
theorem create_video_failure_frame_witness :
    (create_video envNoTool "i.png" "a.mp3" "o.mp4").2.ffmpegInvoked = false ∧
    (create_video envNoTool "i.png" "a.mp3" "o.mp4").2.mkdirCalled = false ∧
    (create_video envNoTool "i.png" "a.mp3" "o.mp4").2.finalFS = envNoTool.fs :=
  create_video_failure_frame envNoTool "i.png" "a.mp3" "o.mp4" .toolMissing
    "FFmpeg is not installed or not available" (by decide) (Or.inl rfl)

end VideoMerger
